import Mathlib

/-!
Shallow embedding of `combine_csv_files.py`, a utility that concatenates a
directory of same-schema CSV files into one output CSV.  Text is modelled as
`List Char`; a CSV file is its header line plus its data-row lines; reading a
CSV with `pl.read_csv` / `pd.read_csv` followed by `write_csv` / `to_csv` is
modelled as the identity round trip on those lines.  The two concatenation
strategies (`combine_csv_polars`, `combine_csv_pandas`) and the `main` driver
are translated from the source, including the exact Python string
manipulation (`.strip()`, `.split('\n')`, `'\n'.join`) that the Polars
strategy applies to every file after the first.
-/

deriving instance DecidableEq for Except

namespace CombineCsv

/-- The newline character used to terminate CSV records. -/
def nl : Char := '\n'

/-- Python whitespace as stripped by `str.strip()`: the ASCII whitespace
characters (space, tab, newline, carriage return, vertical tab, form feed),
the separator controls U+001C-U+001F, and the Unicode whitespace codepoints
U+0085 (NEL), U+00A0 (NBSP), U+1680, U+2000-U+200A, U+2028, U+2029, U+202F,
U+205F and U+3000 — the set CPython's `str.isspace`/`str.strip` use. -/
def pyWs (c : Char) : Bool :=
  c = ' ' || c = '\t' || c = '\n' || c = '\r' || c = '\x0b' || c = '\x0c' ||
  (c.toNat ≥ 0x1c && c.toNat ≤ 0x1f) || c.toNat = 0x85 || c.toNat = 0xa0 ||
  c.toNat = 0x1680 || (c.toNat ≥ 0x2000 && c.toNat ≤ 0x200a) ||
  c.toNat = 0x2028 || c.toNat = 0x2029 || c.toNat = 0x202f ||
  c.toNat = 0x205f || c.toNat = 0x3000

/-- Model of Python `s.strip()` on a character list: remove leading and
trailing whitespace. -/
def pyStrip (s : List Char) : List Char :=
  ((s.dropWhile pyWs).reverse.dropWhile pyWs).reverse

/-- Model of Python `s.split('\n')`: `List.splitOn` has exactly the same
semantics (`"".split('\n') = [""]`, separators removed). -/
def pySplitNl (s : List Char) : List (List Char) :=
  s.splitOn nl

/-- Model of Python `'\n'.join(ls)`. -/
def pyJoinNl (ls : List (List Char)) : List Char :=
  List.intercalate [nl] ls

/-- A parsed CSV file: one header line and a list of data-row lines
(lines are stored without their terminating newline). -/
structure Csv where
  header : List Char
  rows : List (List Char)
deriving DecidableEq

/-- Serialize a list of lines, each followed by a newline. -/
def linesJoin (ls : List (List Char)) : List Char :=
  (ls.map (fun l => l ++ [nl])).flatten

/-- Model of `df.write_csv()` (Polars) and `df.to_csv(index=False)` (Pandas):
the header line then every data row, each record newline-terminated. -/
def write_csv (c : Csv) : List Char :=
  linesJoin (c.header :: c.rows)

/-- Model of `df.to_csv(index=False, header=False)` (Pandas): the data rows
only, each newline-terminated. -/
def to_csv_noheader (c : Csv) : List Char :=
  linesJoin c.rows

/-- Model of lines 60-63 of the source (Polars strategy, non-first file):
`csv_string = df.write_csv()`, `lines = csv_string.strip().split('\n')`,
then write `'\n'.join(lines[1:]) + '\n'`. -/
def polarsAppend (c : Csv) : List Char :=
  pyJoinNl ((pySplitNl (pyStrip (write_csv c))).drop 1) ++ [nl]

/-- One input file: its name and either its parsed content or a read error
(`pl.read_csv` / `pd.read_csv` raising). -/
structure InputFile where
  name : List Char
  content : Except Unit Csv
deriving DecidableEq

/-- Outcome of one run of a concatenation strategy: the contents of the
output file afterwards (`none` means the file does not exist), the final
status (`Except.error n` models the exception re-raised after the diagnostic
naming file `n`; `Except.ok t` carries `total_rows`), and the names of the
input files on which a read was attempted, in order. -/
structure CombineResult where
  output : Option (List Char)
  result : Except (List Char) Nat
  readLog : List (List Char)
deriving DecidableEq

/-- Loop body of `combine_csv_polars` (lines 43-70): the output handle is
already open, `acc` is what has been written so far; the first file is
written via `df.write_csv(f_out)`, later files via the strip/split/join
append; a read error stops the loop at once and re-raises. -/
def polarsGo : List InputFile → Bool → Nat → List Char → List (List Char) → CombineResult
  | [], _, total, acc, log => ⟨some acc, Except.ok total, log⟩
  | f :: fs, first, total, acc, log =>
    match f.content with
    | Except.error _ => ⟨some acc, Except.error f.name, log ++ [f.name]⟩
    | Except.ok c =>
      polarsGo fs false (total + c.rows.length)
        (acc ++ (if first then write_csv c else polarsAppend c))
        (log ++ [f.name])

/-- Model of `combine_csv_polars` (lines 27-75): `open(output_file, 'w')`
truncates (or creates) the output before any input is read, so the loop
starts from empty content regardless of any prior output. -/
def combine_csv_polars (files : List InputFile) : CombineResult :=
  polarsGo files true 0 [] []

/-- Loop body of `combine_csv_pandas` (lines 93-118): `cur` is the current
state of the output file (`none` = absent); the first file is written with
`mode='w'` (replacing whatever was there), later files are appended with
`mode='a', header=False`; a read error stops the loop at once. -/
def pandasGo : List InputFile → Bool → Nat → Option (List Char) → List (List Char) → CombineResult
  | [], _, total, cur, log => ⟨cur, Except.ok total, log⟩
  | f :: fs, first, total, cur, log =>
    match f.content with
    | Except.error _ => ⟨cur, Except.error f.name, log ++ [f.name]⟩
    | Except.ok c =>
      pandasGo fs false (total + c.rows.length)
        (if first then some (write_csv c) else some (cur.getD [] ++ to_csv_noheader c))
        (log ++ [f.name])

/-- Model of `combine_csv_pandas` (lines 78-123): `initial` is the state of
the output file when the function starts; it is only replaced once the first
input file has been read successfully. -/
def combine_csv_pandas (initial : Option (List Char)) (files : List InputFile) : CombineResult :=
  pandasGo files true 0 initial []

/-- Model of Python `s.lower()` (the responses of interest are ASCII, where
`Char.toLower` agrees with Python). -/
def strLower (s : List Char) : List Char :=
  s.map Char.toLower

/-- Environment of one run of `main`: whether `dataverse_files/xdata`
exists, the sorted list of `*.csv` files found there (with their read
behaviour), whether the output file already exists and with which content,
the user's reply to the overwrite prompt, and which engine was selected
when the script loaded (`USE_POLARS`). -/
structure Env where
  dirExists : Bool
  files : List InputFile
  outputExists : Bool
  priorOutput : List Char
  response : List Char
  usePolars : Bool

/-- Observable outcome of `main`: process exit code, final state of the
output file, and which console messages were printed. -/
structure RunResult where
  exitCode : Nat
  output : Option (List Char)
  summaryPrinted : Bool
  cancelledPrinted : Bool
  dirMissingPrinted : Bool
  noCsvPrinted : Bool
  errorFile : Option (List Char)
  readLog : List (List Char)
deriving DecidableEq

/-- The output file's content before the run starts. -/
def initialOutput (env : Env) : Option (List Char) :=
  if env.outputExists then some env.priorOutput else none

/-- Model of `main` (lines 126-168): directory check, `*.csv` glob check,
overwrite confirmation (`response.lower() != 'y'` cancels with exit 0),
then the selected strategy; an exception from the strategy is caught and
turned into exit 1 with no success summary. -/
def main (env : Env) : RunResult :=
  if env.dirExists = false then
    ⟨1, initialOutput env, false, false, true, false, none, []⟩
  else if env.files.isEmpty then
    ⟨1, initialOutput env, false, false, false, true, none, []⟩
  else if env.outputExists && (strLower env.response != ['y']) then
    ⟨0, some env.priorOutput, false, true, false, false, none, []⟩
  else
    let r := if env.usePolars then combine_csv_polars env.files
             else combine_csv_pandas (initialOutput env) env.files
    match r.result with
    | Except.error n => ⟨1, r.output, false, false, false, false, some n, r.readLog⟩
    | Except.ok _ => ⟨0, r.output, true, false, false, false, none, r.readLog⟩

/-- A line of a CSV file contains no newline. -/
def lineOk (l : List Char) : Prop :=
  nl ∉ l

instance (l : List Char) : Decidable (lineOk l) := by
  unfold lineOk
  infer_instance

/-- All lines of a parsed CSV are newline-free. -/
def csvOk (c : Csv) : Prop :=
  lineOk c.header ∧ ∀ r ∈ c.rows, lineOk r

instance (c : Csv) : Decidable (csvOk c) := by
  unfold csvOk
  infer_instance

/-- Conditions under which the Polars strip/split/join append step is
faithful: newline-free lines, a header that is not all whitespace, at least
one data row, and a last row whose last character exists and is not
whitespace (otherwise `.strip()` eats into the data). -/
def appendSafe (c : Csv) : Bool :=
  decide (csvOk c) &&
  c.header.any (fun ch => !pyWs ch) &&
  (match c.rows.getLast? with
   | some r =>
     match r.getLast? with
     | some ch => !pyWs ch
     | none => false
   | none => false)

/-- The lines of a newline-terminated text, as read back from the output
file (`"h\nr\n"` has lines `["h", "r"]`). -/
def fileLines (s : List Char) : List (List Char) :=
  (pySplitNl s).dropLast

/-- Data rows of all files of a list, concatenated in order. -/
def allRows (cs : List Csv) : List (List Char) :=
  (cs.map Csv.rows).flatten

/-- Total data-row count of a list of parsed CSV files. -/
def totalRows (cs : List Csv) : Nat :=
  (cs.map (fun c => c.rows.length)).sum

/-- Readable input files built from (name, content) pairs. -/
def okFiles (ps : List (List Char × Csv)) : List InputFile :=
  ps.map (fun p => ⟨p.1, Except.ok p.2⟩)

theorem linesJoin_nil : linesJoin [] = [] := rfl

theorem linesJoin_cons (l : List Char) (ls : List (List Char)) :
    linesJoin (l :: ls) = l ++ nl :: linesJoin ls := by
  simp [linesJoin]

theorem linesJoin_append (a b : List (List Char)) :
    linesJoin (a ++ b) = linesJoin a ++ linesJoin b := by
  simp [linesJoin]

theorem pySplitNl_single (l : List Char) (h : lineOk l) : pySplitNl l = [l] := by
  unfold pySplitNl List.splitOn
  exact List.splitOnP_eq_single _ _ (fun x hx => by
    simp only [beq_iff_eq]
    rintro rfl
    exact h hx)

theorem pySplitNl_first (l : List Char) (h : lineOk l) (rest : List Char) :
    pySplitNl (l ++ nl :: rest) = l :: pySplitNl rest := by
  unfold pySplitNl List.splitOn
  exact List.splitOnP_first _ _ (fun x hx => by
    simp only [beq_iff_eq]
    rintro rfl
    exact h hx) nl (by simp) rest

theorem pySplitNl_linesJoin_concat (ls : List (List Char)) (last : List Char)
    (hs : ∀ l ∈ ls, lineOk l) (hl : lineOk last) :
    pySplitNl (linesJoin ls ++ last) = ls ++ [last] := by
  induction ls with
  | nil => simpa [linesJoin_nil] using pySplitNl_single last hl
  | cons x t ih =>
    rw [linesJoin_cons]
    have hx : (x ++ nl :: linesJoin t) ++ last = x ++ nl :: (linesJoin t ++ last) := by
      simp
    rw [hx, pySplitNl_first x (hs x (by simp)) _,
      ih (fun l hl2 => hs l (by simp [hl2]))]
    simp

theorem pySplitNl_linesJoin (ls : List (List Char)) (hs : ∀ l ∈ ls, lineOk l) :
    pySplitNl (linesJoin ls) = ls ++ [[]] := by
  have h0 := pySplitNl_linesJoin_concat ls [] hs (by simp [lineOk])
  simpa using h0

theorem fileLines_linesJoin (ls : List (List Char)) (hs : ∀ l ∈ ls, lineOk l) :
    fileLines (linesJoin ls) = ls := by
  rw [fileLines, pySplitNl_linesJoin ls hs, List.dropLast_concat]

theorem pyJoinNl_ne_nil (ls : List (List Char)) (h : ls ≠ []) :
    pyJoinNl ls ++ [nl] = linesJoin ls := by
  induction ls with
  | nil => exact absurd rfl h
  | cons x t ih =>
    cases t with
    | nil => simp [pyJoinNl, List.intercalate, linesJoin]
    | cons y t2 =>
      rw [linesJoin_cons]
      have h2 : pyJoinNl (x :: y :: t2) = x ++ nl :: pyJoinNl (y :: t2) := by
        simp [pyJoinNl, List.intercalate, List.intersperse_cons_cons]
      rw [h2]
      simp only [List.append_assoc, List.cons_append]
      rw [ih (by simp)]

theorem pyWs_nl : pyWs nl = true := by decide

/-- Central characterization: on an append-safe file the Polars
strip/split/join append step writes exactly the data rows, newline
terminated, just as the Pandas `header=False` append does. -/
theorem polarsAppend_eq (c : Csv) (h : appendSafe c = true) :
    polarsAppend c = to_csv_noheader c := by
  rcases List.eq_nil_or_concat' c.rows with hr | ⟨rs, r, hr⟩
  · rw [appendSafe, hr] at h
    simp at h
  rcases List.eq_nil_or_concat' r with hrr | ⟨lc, ch, hrr⟩
  · rw [appendSafe, hr, hrr, List.getLast?_concat] at h
    simp at h
  simp only [appendSafe, hr, hrr, List.getLast?_concat, Bool.and_eq_true,
    decide_eq_true_eq, Bool.not_eq_true'] at h
  obtain ⟨⟨hok, hany⟩, hch⟩ := h
  have hD : List.dropWhile pyWs c.header ≠ [] := by
    rw [Ne, List.dropWhile_eq_nil_iff]
    rw [List.any_eq_true] at hany
    obtain ⟨x, hx, hxw⟩ := hany
    intro hall
    rw [hall x hx] at hxw
    simp at hxw
  obtain ⟨d, ds, hDeq⟩ := List.exists_cons_of_ne_nil hD
  have hDsub : ∀ x ∈ List.dropWhile pyWs c.header, x ∈ c.header :=
    fun x hx => List.dropWhile_subset pyWs hx
  have hDok : lineOk (List.dropWhile pyWs c.header) :=
    fun hx => hok.1 (hDsub nl hx)
  have hrsok : ∀ l ∈ rs, lineOk l := by
    intro l hl
    exact hok.2 l (by rw [hr]; exact List.mem_append_left _ hl)
  have hrok : lineOk (lc ++ [ch]) := by
    rw [← hrr]
    exact hok.2 r (by rw [hr]; exact List.mem_append_right _ (by simp))
  have hS : write_csv c =
      c.header ++ nl :: (linesJoin rs ++ lc ++ [ch] ++ [nl]) := by
    rw [write_csv, linesJoin_cons, hr, linesJoin_append, hrr]
    simp [linesJoin]
  have hstrip : pyStrip (write_csv c) =
      List.dropWhile pyWs c.header ++ nl :: (linesJoin rs ++ lc ++ [ch]) := by
    rw [pyStrip, hS]
    rw [List.dropWhile_append]
    rw [hDeq]
    simp only [List.isEmpty_cons, Bool.false_eq_true, if_false]
    have hrev : ((d :: ds) ++ nl :: (linesJoin rs ++ lc ++ [ch] ++ [nl])).reverse =
        nl :: (ch :: (lc.reverse ++ (linesJoin rs).reverse ++ nl :: (d :: ds).reverse)) := by
      simp
    rw [hrev, List.dropWhile_cons_of_pos (by rw [pyWs_nl]),
      List.dropWhile_cons_of_neg (by rw [hch]; simp)]
    simp
  rw [polarsAppend, hstrip, pySplitNl_first _ hDok _,
    List.append_assoc (linesJoin rs) lc [ch],
    pySplitNl_linesJoin_concat rs (lc ++ [ch]) hrsok hrok]
  simp only [List.drop_one, List.tail_cons]
  rw [pyJoinNl_ne_nil _ (by simp), ← hrr, ← hr]
  rfl

/-- A header-only (zero data rows) file, appended by the Polars strategy
after the first file, contributes exactly one blank line. -/
theorem polarsAppend_headerOnly (H : List Char) (hH : lineOk H)
    (hany : H.any (fun ch => !pyWs ch) = true) :
    polarsAppend ⟨H, []⟩ = [nl] := by
  have hD : List.dropWhile pyWs H ≠ [] := by
    rw [Ne, List.dropWhile_eq_nil_iff]
    rw [List.any_eq_true] at hany
    obtain ⟨x, hx, hxw⟩ := hany
    intro hall
    rw [hall x hx] at hxw
    simp at hxw
  obtain ⟨d, ds, hDeq⟩ := List.exists_cons_of_ne_nil hD
  have hS : write_csv ⟨H, []⟩ = H ++ [nl] := by
    simp [write_csv, linesJoin]
  have hstrip : pyStrip (write_csv ⟨H, []⟩) =
      (List.dropWhile pyWs (List.dropWhile pyWs H).reverse).reverse := by
    rw [pyStrip, hS, List.dropWhile_append, hDeq]
    simp only [List.isEmpty_cons, Bool.false_eq_true, if_false]
    have hrev : ((d :: ds) ++ [nl]).reverse = nl :: (d :: ds).reverse := by
      simp
    rw [hrev, List.dropWhile_cons_of_pos (by rw [pyWs_nl]), ← hDeq]
  have hE : lineOk (List.dropWhile pyWs (List.dropWhile pyWs H).reverse).reverse := by
    intro hx
    rw [List.mem_reverse] at hx
    have hx2 := List.dropWhile_subset pyWs hx
    rw [List.mem_reverse] at hx2
    exact hH (List.dropWhile_subset pyWs hx2)
  rw [polarsAppend, hstrip, pySplitNl_single _ hE]
  simp [pyJoinNl, List.intercalate]

theorem allRows_cons (c : Csv) (cs : List Csv) :
    allRows (c :: cs) = c.rows ++ allRows cs := by
  simp [allRows]

theorem totalRows_cons (c : Csv) (cs : List Csv) :
    totalRows (c :: cs) = c.rows.length + totalRows cs := by
  simp [totalRows]

theorem okFiles_cons (p : List Char × Csv) (t : List (List Char × Csv)) :
    okFiles (p :: t) = ⟨p.1, Except.ok p.2⟩ :: okFiles t := rfl

theorem polarsGo_okTail (ps : List (List Char × Csv))
    (hsafe : ∀ p ∈ ps, appendSafe p.2 = true) :
    ∀ (total : Nat) (acc : List Char) (log : List (List Char)),
    polarsGo (okFiles ps) false total acc log =
      ⟨some (acc ++ linesJoin (allRows (ps.map Prod.snd))),
       Except.ok (total + totalRows (ps.map Prod.snd)),
       log ++ ps.map Prod.fst⟩ := by
  induction ps with
  | nil =>
    intro total acc log
    simp [okFiles, polarsGo, allRows, totalRows, linesJoin]
  | cons p t ih =>
    intro total acc log
    have hp := hsafe p (by simp)
    rw [okFiles_cons]
    simp only [polarsGo, if_false, Bool.false_eq_true]
    rw [polarsAppend_eq _ hp,
      ih (fun q hq => hsafe q (by simp [hq])) _ _ _]
    simp [to_csv_noheader, allRows_cons, totalRows_cons, linesJoin_append,
      List.append_assoc, Nat.add_assoc]

theorem combine_csv_polars_ok (n₀ : List Char) (c₀ : Csv)
    (ps : List (List Char × Csv))
    (hsafe : ∀ p ∈ ps, appendSafe p.2 = true) :
    combine_csv_polars (⟨n₀, Except.ok c₀⟩ :: okFiles ps) =
      ⟨some (linesJoin (c₀.header :: (c₀.rows ++ allRows (ps.map Prod.snd)))),
       Except.ok (c₀.rows.length + totalRows (ps.map Prod.snd)),
       n₀ :: ps.map Prod.fst⟩ := by
  rw [combine_csv_polars]
  simp only [polarsGo, if_true]
  rw [polarsGo_okTail ps hsafe _ _ _]
  simp [write_csv, linesJoin_cons, linesJoin_append, List.append_assoc]

theorem pandasGo_okTail (ps : List (List Char × Csv)) :
    ∀ (total : Nat) (a : List Char) (log : List (List Char)),
    pandasGo (okFiles ps) false total (some a) log =
      ⟨some (a ++ linesJoin (allRows (ps.map Prod.snd))),
       Except.ok (total + totalRows (ps.map Prod.snd)),
       log ++ ps.map Prod.fst⟩ := by
  induction ps with
  | nil =>
    intro total a log
    simp [okFiles, pandasGo, allRows, totalRows, linesJoin]
  | cons p t ih =>
    intro total a log
    rw [okFiles_cons]
    simp only [pandasGo, if_false, Bool.false_eq_true, Option.getD_some]
    rw [ih _ _ _]
    simp [to_csv_noheader, allRows_cons, totalRows_cons, linesJoin_append,
      List.append_assoc, Nat.add_assoc]

theorem combine_csv_pandas_ok (initial : Option (List Char)) (n₀ : List Char)
    (c₀ : Csv) (ps : List (List Char × Csv)) :
    combine_csv_pandas initial (⟨n₀, Except.ok c₀⟩ :: okFiles ps) =
      ⟨some (linesJoin (c₀.header :: (c₀.rows ++ allRows (ps.map Prod.snd)))),
       Except.ok (c₀.rows.length + totalRows (ps.map Prod.snd)),
       n₀ :: ps.map Prod.fst⟩ := by
  rw [combine_csv_pandas]
  simp only [pandasGo, if_true]
  rw [pandasGo_okTail ps _ _ _]
  simp [write_csv, linesJoin_cons, linesJoin_append, List.append_assoc]

theorem polarsGo_error (ps : List (List Char × Csv)) (n : List Char)
    (rest : List InputFile) :
    ∀ (first : Bool) (total : Nat) (acc : List Char) (log : List (List Char)),
    ((polarsGo (okFiles ps ++ ⟨n, Except.error ()⟩ :: rest) first total acc log).result
        = Except.error n) ∧
    ((polarsGo (okFiles ps ++ ⟨n, Except.error ()⟩ :: rest) first total acc log).readLog
        = log ++ ps.map Prod.fst ++ [n]) := by
  induction ps with
  | nil =>
    intro first total acc log
    simp [okFiles, polarsGo]
  | cons p t ih =>
    intro first total acc log
    rw [okFiles_cons, List.cons_append]
    simp only [polarsGo]
    obtain ⟨h1, h2⟩ := ih false (total + p.2.rows.length)
      (acc ++ (if first then write_csv p.2 else polarsAppend p.2)) (log ++ [p.1])
    refine ⟨h1, ?_⟩
    rw [h2]
    simp

theorem pandasGo_error (ps : List (List Char × Csv)) (n : List Char)
    (rest : List InputFile) :
    ∀ (first : Bool) (total : Nat) (cur : Option (List Char)) (log : List (List Char)),
    ((pandasGo (okFiles ps ++ ⟨n, Except.error ()⟩ :: rest) first total cur log).result
        = Except.error n) ∧
    ((pandasGo (okFiles ps ++ ⟨n, Except.error ()⟩ :: rest) first total cur log).readLog
        = log ++ ps.map Prod.fst ++ [n]) := by
  induction ps with
  | nil =>
    intro first total cur log
    simp [okFiles, pandasGo]
  | cons p t ih =>
    intro first total cur log
    rw [okFiles_cons, List.cons_append]
    simp only [pandasGo]
    obtain ⟨h1, h2⟩ := ih false (total + p.2.rows.length)
      (if first then some (write_csv p.2) else some (cur.getD [] ++ to_csv_noheader p.2))
      (log ++ [p.1])
    refine ⟨h1, ?_⟩
    rw [h2]
    simp

theorem char_toNat_ofNat (n : Nat) (h : n < 55296) : (Char.ofNat n).toNat = n := by
  unfold Char.ofNat
  rw [dif_pos (Or.inl h)]
  rfl

theorem toLower_eq_y (c : Char) : Char.toLower c = 'y' ↔ c = 'y' ∨ c = 'Y' := by
  unfold Char.toLower
  by_cases h : c.toNat ≥ 65 ∧ c.toNat ≤ 90
  · rw [if_pos h]
    constructor
    · intro he
      have h1 : (Char.ofNat (c.toNat + 32)).toNat = c.toNat + 32 :=
        char_toNat_ofNat _ (by omega)
      rw [he] at h1
      have hy : ('y' : Char).toNat = 121 := by decide
      rw [hy] at h1
      have h2 : c.toNat = 89 := by omega
      have h3 : Char.ofNat c.toNat = Char.ofNat 89 := by rw [h2]
      rw [Char.ofNat_toNat] at h3
      rw [show Char.ofNat 89 = 'Y' from by decide] at h3
      exact Or.inr h3
    · rintro (rfl | rfl)
      · exact absurd h (by decide)
      · decide
  · rw [if_neg h]
    constructor
    · exact fun he => Or.inl he
    · rintro (rfl | rfl)
      · rfl
      · exact absurd (by decide : ('Y' : Char).toNat ≥ 65 ∧ ('Y' : Char).toNat ≤ 90) h

theorem strLower_eq_y (r : List Char) :
    strLower r = ['y'] ↔ r = ['y'] ∨ r = ['Y'] := by
  cases r with
  | nil => simp [strLower]
  | cons c t =>
    cases t with
    | nil => simp [strLower, toLower_eq_y]
    | cons d t2 => simp [strLower]

theorem appendSafe_csvOk (c : Csv) (h : appendSafe c = true) : csvOk c := by
  rw [appendSafe, Bool.and_eq_true, Bool.and_eq_true] at h
  exact of_decide_eq_true h.1.1

theorem allRows_lineOk (cs : List Csv) (h : ∀ c ∈ cs, csvOk c) :
    ∀ l ∈ allRows cs, lineOk l := by
  intro l hl
  rw [allRows, List.mem_flatten] at hl
  obtain ⟨rs, hrs, hlrs⟩ := hl
  rw [List.mem_map] at hrs
  obtain ⟨c, hc, rfl⟩ := hrs
  exact (h c hc).2 l hlrs

theorem allRows_length (cs : List Csv) : (allRows cs).length = totalRows cs := by
  induction cs with
  | nil => rfl
  | cons c t ih => simp [allRows_cons, totalRows_cons, ih]

theorem allRows_append (a b : List Csv) :
    allRows (a ++ b) = allRows a ++ allRows b := by
  simp [allRows]

theorem totalRows_append (a b : List Csv) :
    totalRows (a ++ b) = totalRows a + totalRows b := by
  simp [totalRows]

theorem okFiles_append (a b : List (List Char × Csv)) :
    okFiles (a ++ b) = okFiles a ++ okFiles b := by
  simp [okFiles]

theorem polarsGo_okTail_append (t : List (List Char × Csv)) (rest : List InputFile)
    (hsafe : ∀ p ∈ t, appendSafe p.2 = true) :
    ∀ (total : Nat) (acc : List Char) (log : List (List Char)),
    polarsGo (okFiles t ++ rest) false total acc log =
      polarsGo rest false (total + totalRows (t.map Prod.snd))
        (acc ++ linesJoin (allRows (t.map Prod.snd))) (log ++ t.map Prod.fst) := by
  induction t with
  | nil =>
    intro total acc log
    simp [okFiles, allRows, totalRows, linesJoin]
  | cons p t2 ih =>
    intro total acc log
    rw [okFiles_cons, List.cons_append]
    simp only [polarsGo, if_false, Bool.false_eq_true]
    rw [polarsAppend_eq _ (hsafe p (by simp)),
      ih (fun q hq => hsafe q (by simp [hq])) _ _ _]
    simp [to_csv_noheader, allRows_cons, totalRows_cons, linesJoin_append,
      List.append_assoc, Nat.add_assoc]

/-- C1 (amended): for a non-empty sorted list of readable input CSV files
whose lines are newline-free, provided every file after the first has at
least one data row, a last row that is nonempty and does not end in
whitespace, and a header that is not all whitespace, the output of either
strategy has exactly one header line, identical to the first input file's
header line, and its data rows are exactly the concatenation of every input
file's data rows in input-file order and within-file row order.  (As stated
the claim fails: a header-only file after the first makes the Polars
strategy emit an extra blank line.) -/
theorem mixed_lines_ok (c₀ : Csv) (ps : List (List Char × Csv))
    (h₀ : csvOk c₀) (hsafe : ∀ p ∈ ps, appendSafe p.2 = true) :
    ∀ l ∈ c₀.header :: (c₀.rows ++ allRows (ps.map Prod.snd)), lineOk l := by
  intro l hl
  rcases List.mem_cons.mp hl with rfl | hl2
  · exact h₀.1
  rcases List.mem_append.mp hl2 with h3 | h3
  · exact h₀.2 l h3
  · refine allRows_lineOk _ ?_ l h3
    intro c hc
    rw [List.mem_map] at hc
    obtain ⟨p, hp, rfl⟩ := hc
    exact appendSafe_csvOk _ (hsafe p hp)

theorem claim1_output_lines (n₀ : List Char) (c₀ : Csv)
    (ps : List (List Char × Csv)) (init : Option (List Char))
    (h₀ : csvOk c₀) (hsafe : ∀ p ∈ ps, appendSafe p.2 = true) :
    (∃ t, (combine_csv_polars (⟨n₀, Except.ok c₀⟩ :: okFiles ps)).output = some t ∧
      fileLines t = c₀.header :: (c₀.rows ++ allRows (ps.map Prod.snd))) ∧
    (∃ t, (combine_csv_pandas init (⟨n₀, Except.ok c₀⟩ :: okFiles ps)).output = some t ∧
      fileLines t = c₀.header :: (c₀.rows ++ allRows (ps.map Prod.snd))) := by
  have hlines := mixed_lines_ok c₀ ps h₀ hsafe
  refine ⟨⟨linesJoin (c₀.header :: (c₀.rows ++ allRows (ps.map Prod.snd))), ?_,
      fileLines_linesJoin _ hlines⟩,
    ⟨linesJoin (c₀.header :: (c₀.rows ++ allRows (ps.map Prod.snd))), ?_,
      fileLines_linesJoin _ hlines⟩⟩
  · rw [combine_csv_polars_ok _ _ _ hsafe]
  · rw [combine_csv_pandas_ok]

/-- Witness for C1 at a concrete two-file input. -/
theorem claim1_witness :
    (∃ t, (combine_csv_polars [⟨['a'], Except.ok ⟨['h'], [['r']]⟩⟩,
        ⟨['b'], Except.ok ⟨['h'], [['s']]⟩⟩]).output = some t ∧
      fileLines t = [['h'], ['r'], ['s']]) ∧
    (∃ t, (combine_csv_pandas none [⟨['a'], Except.ok ⟨['h'], [['r']]⟩⟩,
        ⟨['b'], Except.ok ⟨['h'], [['s']]⟩⟩]).output = some t ∧
      fileLines t = [['h'], ['r'], ['s']]) := by
  have h := claim1_output_lines ['a'] ⟨['h'], [['r']]⟩ [(['b'], ⟨['h'], [['s']]⟩)]
    none (by decide) (by decide)
  simpa [okFiles, allRows] using h

/-- Counterexample for C1 as stated: with a header-only second file the
Polars strategy emits a blank line, so the output's data rows are not the
concatenation of the input files' data rows. -/
theorem claim1_cex :
    (combine_csv_polars [⟨['a'], Except.ok ⟨['h'], [['r']]⟩⟩,
        ⟨['b'], Except.ok ⟨['h'], []⟩⟩]).output = some ['h', nl, 'r', nl, nl] ∧
    fileLines ['h', nl, 'r', nl, nl] ≠ [['h'], ['r']] := by
  decide

/-- C2 (amended): under the same conditions as C1, the run summary's total
row count is the sum of the input files' data-row counts, and the output's
data-row count (its line count minus the header line) equals that sum, for
both strategies.  (As stated the claim fails for the Polars strategy: a
header-only file after the first adds a blank line to the output, so the
output then has one more data line than the reported and actual total.) -/
theorem claim2_row_counts (n₀ : List Char) (c₀ : Csv)
    (ps : List (List Char × Csv)) (init : Option (List Char))
    (h₀ : csvOk c₀) (hsafe : ∀ p ∈ ps, appendSafe p.2 = true) :
    ((combine_csv_polars (⟨n₀, Except.ok c₀⟩ :: okFiles ps)).result =
      Except.ok (c₀.rows.length + totalRows (ps.map Prod.snd))) ∧
    ((combine_csv_pandas init (⟨n₀, Except.ok c₀⟩ :: okFiles ps)).result =
      Except.ok (c₀.rows.length + totalRows (ps.map Prod.snd))) ∧
    (∃ t, (combine_csv_polars (⟨n₀, Except.ok c₀⟩ :: okFiles ps)).output = some t ∧
      (fileLines t).length = 1 + (c₀.rows.length + totalRows (ps.map Prod.snd))) ∧
    (∃ t, (combine_csv_pandas init (⟨n₀, Except.ok c₀⟩ :: okFiles ps)).output = some t ∧
      (fileLines t).length = 1 + (c₀.rows.length + totalRows (ps.map Prod.snd))) := by
  have hlines := mixed_lines_ok c₀ ps h₀ hsafe
  have hflen : (fileLines (linesJoin (c₀.header :: (c₀.rows ++ allRows (ps.map Prod.snd))))).length
      = 1 + (c₀.rows.length + totalRows (ps.map Prod.snd)) := by
    rw [fileLines_linesJoin _ hlines]
    simp [allRows_length, Nat.add_comm]
  refine ⟨?_, ?_, ⟨linesJoin (c₀.header :: (c₀.rows ++ allRows (ps.map Prod.snd))), ?_, hflen⟩,
    ⟨linesJoin (c₀.header :: (c₀.rows ++ allRows (ps.map Prod.snd))), ?_, hflen⟩⟩
  · rw [combine_csv_polars_ok _ _ _ hsafe]
  · rw [combine_csv_pandas_ok]
  · rw [combine_csv_polars_ok _ _ _ hsafe]
  · rw [combine_csv_pandas_ok]

/-- Witness for C2 at a concrete two-file input. -/
theorem claim2_witness :
    ((combine_csv_polars [⟨['a'], Except.ok ⟨['h'], [['r']]⟩⟩,
        ⟨['b'], Except.ok ⟨['h'], [['s'], ['u']]⟩⟩]).result = Except.ok 3) ∧
    ((combine_csv_pandas none [⟨['a'], Except.ok ⟨['h'], [['r']]⟩⟩,
        ⟨['b'], Except.ok ⟨['h'], [['s'], ['u']]⟩⟩]).result = Except.ok 3) ∧
    (∃ t, (combine_csv_polars [⟨['a'], Except.ok ⟨['h'], [['r']]⟩⟩,
        ⟨['b'], Except.ok ⟨['h'], [['s'], ['u']]⟩⟩]).output = some t ∧
      (fileLines t).length = 4) := by
  have h := claim2_row_counts ['a'] ⟨['h'], [['r']]⟩ [(['b'], ⟨['h'], [['s'], ['u']]⟩)]
    none (by decide) (by decide)
  refine ⟨?_, ?_, ?_⟩
  · simpa [okFiles, totalRows] using h.1
  · simpa [okFiles, totalRows] using h.2.1
  · simpa [okFiles, totalRows] using h.2.2.1

/-- Counterexample for C2 as stated: with a header-only second file the
Polars strategy reports a total of 1 data row while the output file has 2
data lines (the real row plus a blank line). -/
theorem claim2_cex :
    (combine_csv_polars [⟨['a'], Except.ok ⟨['h'], [['r']]⟩⟩,
        ⟨['b'], Except.ok ⟨['h'], []⟩⟩]).result = Except.ok 1 ∧
    (combine_csv_polars [⟨['a'], Except.ok ⟨['h'], [['r']]⟩⟩,
        ⟨['b'], Except.ok ⟨['h'], []⟩⟩]).output = some ['h', nl, 'r', nl, nl] ∧
    (fileLines ['h', nl, 'r', nl, nl]).length - 1 ≠ 1 := by
  decide

/-- C3 (amended): for a non-empty list of readable input files in which
every file after the first has at least one data row, a last row that is
nonempty and does not end in whitespace, and a header that is not all
whitespace, the Polars and Pandas strategies produce identical output file
contents, whatever the prior state of the output file.  (As stated the
claim fails: on a header-only file after the first the Polars strategy
writes an extra blank line that the Pandas strategy does not.) -/
theorem claim3_engine_equiv (n₀ : List Char) (c₀ : Csv)
    (ps : List (List Char × Csv)) (init : Option (List Char))
    (hsafe : ∀ p ∈ ps, appendSafe p.2 = true) :
    (combine_csv_polars (⟨n₀, Except.ok c₀⟩ :: okFiles ps)).output =
      (combine_csv_pandas init (⟨n₀, Except.ok c₀⟩ :: okFiles ps)).output := by
  rw [combine_csv_polars_ok _ _ _ hsafe, combine_csv_pandas_ok]

/-- Witness for C3 at a concrete two-file input. -/
theorem claim3_witness :
    (combine_csv_polars [⟨['a'], Except.ok ⟨['h'], [['r']]⟩⟩,
        ⟨['b'], Except.ok ⟨['h'], [['s']]⟩⟩]).output =
      (combine_csv_pandas (some ['z']) [⟨['a'], Except.ok ⟨['h'], [['r']]⟩⟩,
        ⟨['b'], Except.ok ⟨['h'], [['s']]⟩⟩]).output := by
  have h := claim3_engine_equiv ['a'] ⟨['h'], [['r']]⟩ [(['b'], ⟨['h'], [['s']]⟩)]
    (some ['z']) (by decide)
  simpa [okFiles] using h

/-- Counterexample for C3 as stated: on an input list whose second file is
header-only, the two strategies produce different output contents, so the
engine choice is observable. -/
theorem claim3_cex :
    (combine_csv_polars [⟨['a'], Except.ok ⟨['h'], [['r']]⟩⟩,
        ⟨['b'], Except.ok ⟨['h'], []⟩⟩]).output ≠
      (combine_csv_pandas none [⟨['a'], Except.ok ⟨['h'], [['r']]⟩⟩,
        ⟨['b'], Except.ok ⟨['h'], []⟩⟩]).output := by
  decide

theorem pandas_empty_mid (init : Option (List Char)) (q : List Char × Csv)
    (ps₁ ps₂ : List (List Char × Csv)) (n H : List Char) :
    (combine_csv_pandas init (okFiles (q :: (ps₁ ++ (n, Csv.mk H []) :: ps₂)))).output =
      (combine_csv_pandas init (okFiles (q :: (ps₁ ++ ps₂)))).output ∧
    (combine_csv_pandas init (okFiles (q :: (ps₁ ++ (n, Csv.mk H []) :: ps₂)))).result =
      (combine_csv_pandas init (okFiles (q :: (ps₁ ++ ps₂)))).result := by
  rw [okFiles_cons, okFiles_cons, combine_csv_pandas_ok, combine_csv_pandas_ok]
  constructor <;>
    simp [List.map_append, allRows_append, allRows_cons, totalRows_append, totalRows_cons]

theorem pandas_empty_first (init : Option (List Char)) (n H : List Char)
    (q : List Char × Csv) (ps : List (List Char × Csv))
    (hH : H = q.2.header) :
    (combine_csv_pandas init (okFiles ((n, Csv.mk H []) :: q :: ps))).output =
      (combine_csv_pandas init (okFiles (q :: ps))).output ∧
    (combine_csv_pandas init (okFiles ((n, Csv.mk H []) :: q :: ps))).result =
      (combine_csv_pandas init (okFiles (q :: ps))).result := by
  rw [okFiles_cons (n, Csv.mk H []) (q :: ps), combine_csv_pandas_ok,
    okFiles_cons q ps, combine_csv_pandas_ok]
  subst hH
  constructor <;> simp [allRows_cons, totalRows_cons]

theorem polars_empty_first (n H : List Char) (q : List Char × Csv)
    (ps : List (List Char × Csv)) (hH : H = q.2.header)
    (hq : appendSafe q.2 = true) (hps : ∀ p ∈ ps, appendSafe p.2 = true) :
    (combine_csv_polars (okFiles ((n, Csv.mk H []) :: q :: ps))).output =
      (combine_csv_polars (okFiles (q :: ps))).output ∧
    (combine_csv_polars (okFiles ((n, Csv.mk H []) :: q :: ps))).result =
      (combine_csv_polars (okFiles (q :: ps))).result := by
  have hqs : ∀ p ∈ q :: ps, appendSafe p.2 = true := by
    intro p hp
    rcases List.mem_cons.mp hp with rfl | hp2
    · exact hq
    · exact hps p hp2
  rw [okFiles_cons (n, Csv.mk H []) (q :: ps), combine_csv_polars_ok _ _ _ hqs,
    okFiles_cons q ps, combine_csv_polars_ok _ _ _ hps]
  subst hH
  constructor <;> simp [allRows_cons, totalRows_cons]

theorem polars_empty_mid (q : List Char × Csv) (t ps₂ : List (List Char × Csv))
    (n H : List Char) (hH : lineOk H)
    (hHany : H.any (fun ch => !pyWs ch) = true)
    (ht : ∀ p ∈ t, appendSafe p.2 = true)
    (hps₂ : ∀ p ∈ ps₂, appendSafe p.2 = true) :
    (combine_csv_polars (okFiles (q :: (t ++ (n, Csv.mk H []) :: ps₂)))).output =
      some (linesJoin (q.2.header :: (q.2.rows ++ allRows (t.map Prod.snd))) ++ [nl] ++
        linesJoin (allRows (ps₂.map Prod.snd))) ∧
    (combine_csv_polars (okFiles (q :: (t ++ ps₂)))).output =
      some (linesJoin (q.2.header :: (q.2.rows ++ allRows (t.map Prod.snd))) ++
        linesJoin (allRows (ps₂.map Prod.snd))) ∧
    (combine_csv_polars (okFiles (q :: (t ++ (n, Csv.mk H []) :: ps₂)))).result =
      (combine_csv_polars (okFiles (q :: (t ++ ps₂)))).result := by
  have hts : ∀ p ∈ t ++ ps₂, appendSafe p.2 = true := by
    intro p hp
    rcases List.mem_append.mp hp with hp2 | hp2
    · exact ht p hp2
    · exact hps₂ p hp2
  have hwith : combine_csv_polars (okFiles (q :: (t ++ (n, Csv.mk H []) :: ps₂))) =
      ⟨some (write_csv q.2 ++ linesJoin (allRows (t.map Prod.snd)) ++ [nl] ++
          linesJoin (allRows (ps₂.map Prod.snd))),
        Except.ok (q.2.rows.length + totalRows (t.map Prod.snd) +
          totalRows (ps₂.map Prod.snd)),
        q.1 :: (t.map Prod.fst ++ n :: ps₂.map Prod.fst)⟩ := by
    rw [okFiles_cons, okFiles_append, okFiles_cons, combine_csv_polars]
    simp only [polarsGo, if_true]
    rw [polarsGo_okTail_append t _ ht _ _ _]
    simp only [polarsGo, if_false, Bool.false_eq_true]
    rw [polarsAppend_headerOnly H hH hHany, polarsGo_okTail ps₂ hps₂ _ _ _]
    simp [List.append_assoc, Nat.add_assoc]
  rw [hwith, okFiles_cons, combine_csv_polars_ok _ _ _ hts]
  refine ⟨?_, ?_, ?_⟩
  · simp [write_csv, linesJoin_cons, linesJoin_append, List.append_assoc]
  · simp [List.map_append, allRows_append, linesJoin_cons, linesJoin_append,
      List.append_assoc]
  · simp [List.map_append, totalRows_append, Nat.add_assoc]

/-- C4 (amended): an empty input file (header only, zero data rows)
contributes zero to the reported row count in both strategies.  In the
Pandas strategy it also leaves the output unchanged: unconditionally at any
position after the first, and at the first position provided the next file
has the same header.  In the Polars strategy it leaves the output unchanged
when it is the first file (same-header proviso, later files append-safe);
at any later position it contributes exactly one blank line to the output
at that point, the rest of the output and the reported row count being
unchanged.  (As stated the claim fails: in the Polars strategy an empty
file after the first does not leave the output otherwise unchanged.) -/
theorem claim4_empty_file :
    (∀ (init : Option (List Char)) (q : List Char × Csv)
        (ps₁ ps₂ : List (List Char × Csv)) (n H : List Char),
      (combine_csv_pandas init (okFiles (q :: (ps₁ ++ (n, Csv.mk H []) :: ps₂)))).output =
        (combine_csv_pandas init (okFiles (q :: (ps₁ ++ ps₂)))).output ∧
      (combine_csv_pandas init (okFiles (q :: (ps₁ ++ (n, Csv.mk H []) :: ps₂)))).result =
        (combine_csv_pandas init (okFiles (q :: (ps₁ ++ ps₂)))).result) ∧
    (∀ (init : Option (List Char)) (n H : List Char) (q : List Char × Csv)
        (ps : List (List Char × Csv)), H = q.2.header →
      (combine_csv_pandas init (okFiles ((n, Csv.mk H []) :: q :: ps))).output =
        (combine_csv_pandas init (okFiles (q :: ps))).output ∧
      (combine_csv_pandas init (okFiles ((n, Csv.mk H []) :: q :: ps))).result =
        (combine_csv_pandas init (okFiles (q :: ps))).result) ∧
    (∀ (n H : List Char) (q : List Char × Csv) (ps : List (List Char × Csv)),
      H = q.2.header → appendSafe q.2 = true →
      (∀ p ∈ ps, appendSafe p.2 = true) →
      (combine_csv_polars (okFiles ((n, Csv.mk H []) :: q :: ps))).output =
        (combine_csv_polars (okFiles (q :: ps))).output ∧
      (combine_csv_polars (okFiles ((n, Csv.mk H []) :: q :: ps))).result =
        (combine_csv_polars (okFiles (q :: ps))).result) ∧
    (∀ (q : List Char × Csv) (t ps₂ : List (List Char × Csv)) (n H : List Char),
      lineOk H → H.any (fun ch => !pyWs ch) = true →
      (∀ p ∈ t, appendSafe p.2 = true) → (∀ p ∈ ps₂, appendSafe p.2 = true) →
      (combine_csv_polars (okFiles (q :: (t ++ (n, Csv.mk H []) :: ps₂)))).output =
        some (linesJoin (q.2.header :: (q.2.rows ++ allRows (t.map Prod.snd))) ++ [nl] ++
          linesJoin (allRows (ps₂.map Prod.snd))) ∧
      (combine_csv_polars (okFiles (q :: (t ++ ps₂)))).output =
        some (linesJoin (q.2.header :: (q.2.rows ++ allRows (t.map Prod.snd))) ++
          linesJoin (allRows (ps₂.map Prod.snd))) ∧
      (combine_csv_polars (okFiles (q :: (t ++ (n, Csv.mk H []) :: ps₂)))).result =
        (combine_csv_polars (okFiles (q :: (t ++ ps₂)))).result) :=
  ⟨pandas_empty_mid, pandas_empty_first, polars_empty_first, polars_empty_mid⟩

/-- Witness for C4 at concrete inputs, one per conjunct. -/
theorem claim4_witness :
    ((combine_csv_pandas none (okFiles [(['a'], ⟨['h'], [['r']]⟩), (['e'], ⟨['h'], []⟩),
        (['c'], ⟨['h'], [['s']]⟩)])).output =
      (combine_csv_pandas none (okFiles [(['a'], ⟨['h'], [['r']]⟩),
        (['c'], ⟨['h'], [['s']]⟩)])).output) ∧
    ((combine_csv_pandas none (okFiles [(['e'], ⟨['h'], []⟩),
        (['a'], ⟨['h'], [['r']]⟩)])).output =
      (combine_csv_pandas none (okFiles [(['a'], ⟨['h'], [['r']]⟩)])).output) ∧
    ((combine_csv_polars (okFiles [(['e'], ⟨['h'], []⟩),
        (['a'], ⟨['h'], [['r']]⟩)])).output =
      (combine_csv_polars (okFiles [(['a'], ⟨['h'], [['r']]⟩)])).output) ∧
    ((combine_csv_polars (okFiles [(['a'], ⟨['h'], [['r']]⟩), (['e'], ⟨['h'], []⟩),
        (['c'], ⟨['h'], [['s']]⟩)])).output = some ['h', nl, 'r', nl, nl, 's', nl]) ∧
    ((combine_csv_polars (okFiles [(['a'], ⟨['h'], [['r']]⟩),
        (['c'], ⟨['h'], [['s']]⟩)])).output = some ['h', nl, 'r', nl, 's', nl]) := by
  obtain ⟨hA, hB, hC, hD⟩ := claim4_empty_file
  have hd := hD (['a'], ⟨['h'], [['r']]⟩) [] [(['c'], ⟨['h'], [['s']]⟩)] ['e'] ['h']
    (by decide) (by decide) (by decide) (by decide)
  exact ⟨(hA none (['a'], ⟨['h'], [['r']]⟩) [] [(['c'], ⟨['h'], [['s']]⟩)] ['e'] ['h']).1,
    (hB none ['e'] ['h'] (['a'], ⟨['h'], [['r']]⟩) [] (by decide)).1,
    (hC ['e'] ['h'] (['a'], ⟨['h'], [['r']]⟩) [] (by decide) (by decide) (by decide)).1,
    hd.1, hd.2.1⟩

/-- Counterexample for C4 as stated: deleting the header-only second file
changes the Polars output (the blank line disappears). -/
theorem claim4_cex :
    (combine_csv_polars [⟨['a'], Except.ok ⟨['h'], [['r']]⟩⟩,
        ⟨['e'], Except.ok ⟨['h'], []⟩⟩]).output ≠
      (combine_csv_polars [⟨['a'], Except.ok ⟨['h'], [['r']]⟩⟩]).output := by
  decide

/-- C5: if reading some input file raises an error (earlier files all
readable), the run aborts at that file: the diagnostic names the offending
file, the error is re-raised so no later file is read, no success summary
is printed, and the process exits with status 1. -/
theorem claim5_read_error_aborts (env : Env) (ps : List (List Char × Csv))
    (n : List Char) (rest : List InputFile)
    (hdir : env.dirExists = true)
    (hfiles : env.files = okFiles ps ++ ⟨n, Except.error ()⟩ :: rest)
    (hprompt : (env.outputExists && (strLower env.response != ['y'])) = false) :
    (main env).exitCode = 1 ∧ (main env).summaryPrinted = false ∧
    (main env).errorFile = some n ∧
    (main env).readLog = ps.map Prod.fst ++ [n] := by
  have hne : env.files.isEmpty = false := by
    rw [hfiles]
    cases hps : okFiles ps <;> simp [hps]
  cases hu : env.usePolars
  · obtain ⟨h1, h2⟩ := pandasGo_error ps n rest true 0 (initialOutput env) []
    simp [main, hdir, hne, hprompt, hu, hfiles, combine_csv_pandas, h1, h2]
  · obtain ⟨h1, h2⟩ := polarsGo_error ps n rest true 0 [] []
    simp [main, hdir, hne, hprompt, hu, hfiles, combine_csv_polars, h1, h2]

/-- Witness for C5 at a concrete environment. -/
theorem claim5_witness :
    (main ⟨true, [⟨['a'], Except.ok ⟨['h'], [['r']]⟩⟩, ⟨['b'], Except.error ()⟩],
        false, [], [], true⟩).exitCode = 1 ∧
    (main ⟨true, [⟨['a'], Except.ok ⟨['h'], [['r']]⟩⟩, ⟨['b'], Except.error ()⟩],
        false, [], [], true⟩).summaryPrinted = false ∧
    (main ⟨true, [⟨['a'], Except.ok ⟨['h'], [['r']]⟩⟩, ⟨['b'], Except.error ()⟩],
        false, [], [], true⟩).errorFile = some ['b'] ∧
    (main ⟨true, [⟨['a'], Except.ok ⟨['h'], [['r']]⟩⟩, ⟨['b'], Except.error ()⟩],
        false, [], [], true⟩).readLog = [['a'], ['b']] := by
  have h := claim5_read_error_aborts
    ⟨true, [⟨['a'], Except.ok ⟨['h'], [['r']]⟩⟩, ⟨['b'], Except.error ()⟩],
      false, [], [], true⟩
    [(['a'], ⟨['h'], [['r']]⟩)] ['b'] [] rfl rfl rfl
  simpa using h

/-- C6: a missing input directory, or an existing directory with no
matching CSV files, terminates the run with exit status 1 and its own
diagnostic, before any input file is read and without creating or touching
the output file. -/
theorem claim6_no_input (env : Env) :
    (env.dirExists = false →
      (main env).exitCode = 1 ∧ (main env).dirMissingPrinted = true ∧
      (main env).output = initialOutput env ∧ (main env).readLog = []) ∧
    (env.dirExists = true → env.files = [] →
      (main env).exitCode = 1 ∧ (main env).noCsvPrinted = true ∧
      (main env).output = initialOutput env ∧ (main env).readLog = []) := by
  constructor
  · intro h
    simp [main, h]
  · intro h1 h2
    simp [main, h1, h2]

/-- Witness for C6 at concrete environments (missing directory; directory
with no CSV files and no pre-existing output, so no output is created). -/
theorem claim6_witness :
    ((main ⟨false, [], false, [], [], true⟩).exitCode = 1 ∧
      (main ⟨false, [], false, [], [], true⟩).dirMissingPrinted = true ∧
      (main ⟨false, [], false, [], [], true⟩).output = none ∧
      (main ⟨false, [], false, [], [], true⟩).readLog = []) ∧
    ((main ⟨true, [], false, [], [], true⟩).exitCode = 1 ∧
      (main ⟨true, [], false, [], [], true⟩).noCsvPrinted = true ∧
      (main ⟨true, [], false, [], [], true⟩).output = none ∧
      (main ⟨true, [], false, [], [], true⟩).readLog = []) := by
  have h1 := (claim6_no_input ⟨false, [], false, [], [], true⟩).1 rfl
  have h2 := (claim6_no_input ⟨true, [], false, [], [], true⟩).2 rfl rfl
  constructor
  · simpa [initialOutput] using h1
  · simpa [initialOutput] using h2

/-- C7: when the output file already exists and the user declines the
overwrite prompt, the process prints the cancellation message, exits with
status 0, reads no input file, and leaves the pre-existing output
unmodified. -/
theorem claim7_decline_cancels (env : Env) (hdir : env.dirExists = true)
    (hne : env.files.isEmpty = false) (hout : env.outputExists = true)
    (hresp : strLower env.response ≠ ['y']) :
    (main env).exitCode = 0 ∧ (main env).cancelledPrinted = true ∧
    (main env).summaryPrinted = false ∧
    (main env).output = some env.priorOutput ∧ (main env).readLog = [] := by
  simp [main, hdir, hne, hout, hresp]

/-- Witness for C7 at a concrete environment. -/
theorem claim7_witness :
    (main ⟨true, [⟨['a'], Except.ok ⟨['h'], [['r']]⟩⟩], true, ['z'], ['n'], true⟩).exitCode = 0 ∧
    (main ⟨true, [⟨['a'], Except.ok ⟨['h'], [['r']]⟩⟩], true, ['z'], ['n'], true⟩).cancelledPrinted = true ∧
    (main ⟨true, [⟨['a'], Except.ok ⟨['h'], [['r']]⟩⟩], true, ['z'], ['n'], true⟩).summaryPrinted = false ∧
    (main ⟨true, [⟨['a'], Except.ok ⟨['h'], [['r']]⟩⟩], true, ['z'], ['n'], true⟩).output = some ['z'] ∧
    (main ⟨true, [⟨['a'], Except.ok ⟨['h'], [['r']]⟩⟩], true, ['z'], ['n'], true⟩).readLog = [] := by
  have h := claim7_decline_cancels
    ⟨true, [⟨['a'], Except.ok ⟨['h'], [['r']]⟩⟩], true, ['z'], ['n'], true⟩
    rfl rfl rfl (by decide)
  simpa using h

/-- C8: determinism: two runs over the same input file list with the same
engine and no pre-existing output produce the same output file contents,
whatever the other environment differences (prompt reply, prior content). -/
theorem claim8_deterministic (e1 e2 : Env) (h1 : e1.dirExists = true)
    (h2 : e2.dirExists = true) (ho1 : e1.outputExists = false)
    (ho2 : e2.outputExists = false) (hf : e1.files = e2.files)
    (hu : e1.usePolars = e2.usePolars) :
    (main e1).output = (main e2).output := by
  simp [main, h1, h2, ho1, ho2, hf, hu, initialOutput]

/-- Witness for C8 at two concrete environments differing only in prompt
reply. -/
theorem claim8_witness :
    (main ⟨true, [⟨['a'], Except.ok ⟨['h'], [['r']]⟩⟩], false, [], ['x'], true⟩).output =
      (main ⟨true, [⟨['a'], Except.ok ⟨['h'], [['r']]⟩⟩], false, [], ['y'], true⟩).output :=
  claim8_deterministic
    ⟨true, [⟨['a'], Except.ok ⟨['h'], [['r']]⟩⟩], false, [], ['x'], true⟩
    ⟨true, [⟨['a'], Except.ok ⟨['h'], [['r']]⟩⟩], false, [], ['y'], true⟩
    rfl rfl rfl rfl rfl rfl

/-- C9: at the overwrite prompt the run proceeds exactly when the lowercased
response is the single character y, i.e. exactly for the responses y and Y;
every other response cancels with exit status 0 and no file read. -/
theorem claim9_prompt (env : Env) (hdir : env.dirExists = true)
    (hne : env.files.isEmpty = false) (hout : env.outputExists = true) :
    ((main env).cancelledPrinted = false ↔ strLower env.response = ['y']) ∧
    (strLower env.response = ['y'] ↔ env.response = ['y'] ∨ env.response = ['Y']) ∧
    (strLower env.response ≠ ['y'] →
      (main env).exitCode = 0 ∧ (main env).readLog = []) := by
  refine ⟨?_, strLower_eq_y env.response, ?_⟩
  · by_cases hr : strLower env.response = ['y']
    · simp only [hr, iff_true]
      simp [main, hdir, hne, hout, hr]
      cases hres : (if env.usePolars = true then combine_csv_polars env.files
          else combine_csv_pandas (initialOutput env) env.files).result <;>
        simp [hres]
    · simp [main, hdir, hne, hout, hr]
  · intro hr
    simp [main, hdir, hne, hout, hr]

/-- Witness for C9 at a concrete environment with response Y. -/
theorem claim9_witness :
    ((main ⟨true, [⟨['a'], Except.ok ⟨['h'], [['r']]⟩⟩], true, ['z'], ['Y'], true⟩).cancelledPrinted = false ↔
      strLower ['Y'] = ['y']) ∧
    (strLower ['Y'] = ['y'] ↔ (['Y'] : List Char) = ['y'] ∨ (['Y'] : List Char) = ['Y']) := by
  have h := claim9_prompt
    ⟨true, [⟨['a'], Except.ok ⟨['h'], [['r']]⟩⟩], true, ['z'], ['Y'], true⟩
    rfl rfl rfl
  exact ⟨h.1, h.2.1⟩

/-- C10: a read error on the very first input file is observed differently
by the two strategies: Polars has already opened the output for writing, so
a pre-existing output is truncated to empty; Pandas has not yet written, so
the pre-existing output is untouched. -/
theorem claim10_first_error_truncation (env : Env) (n : List Char)
    (rest : List InputFile) (hdir : env.dirExists = true)
    (hfiles : env.files = ⟨n, Except.error ()⟩ :: rest)
    (hout : env.outputExists = true)
    (hresp : strLower env.response = ['y']) :
    (main {env with usePolars := true}).output = some [] ∧
    (main {env with usePolars := false}).output = some env.priorOutput := by
  constructor <;>
    simp [main, hdir, hfiles, hout, hresp, combine_csv_polars, combine_csv_pandas,
      polarsGo, pandasGo, initialOutput]

/-- Witness for C10 at a concrete environment. -/
theorem claim10_witness :
    (main ⟨true, [⟨['b'], Except.error ()⟩], true, ['z'], ['y'], true⟩).output = some [] ∧
    (main ⟨true, [⟨['b'], Except.error ()⟩], true, ['z'], ['y'], false⟩).output = some ['z'] := by
  have h := claim10_first_error_truncation
    ⟨true, [⟨['b'], Except.error ()⟩], true, ['z'], ['y'], true⟩
    ['b'] [] rfl rfl rfl (by decide)
  exact ⟨h.1, h.2⟩

end CombineCsv
